import Mathlib

set_option linter.unusedVariables false
set_option autoImplicit false
set_option maxHeartbeats 2000000
set_option maxRecDepth 4000

/-!
Shallow embedding of the fingerprint-processor core
(`src/fingerprint-processor/src/core/CorePointDetector.{h,cpp}` and the
`FileManager` implementation) for checking the natural-language
specification against the code.

Modelling conventions:
* `cv::Mat` is modelled by `Mat`: dimensions, channel count and a total
  pixel function.  C `float`/`double` values are modelled as exact
  rationals (every IEEE float is a rational); float literals that are not
  exactly representable (`0.2f`, `M_PI`) are embedded as the exact
  rational value of the corresponding IEEE constant.  Rounding of
  intermediate float arithmetic is not modelled.
* The OpenCV primitives the detector calls (GaussianBlur, normalize,
  equalizeHist, Sobel, Laplacian, atan2, and the floating-point square
  root used inside meanStdDev) are external library code, not repository
  code; they are parameters of the model, bundled in `Prims`.  Everything
  the repository itself computes (mean, variance, loops, thresholds,
  control flow) is translated directly from the source.
* Wall-clock time (`Timer`) is nondeterministic; the measured duration is
  passed as an explicit parameter `t`.
* The static AVX2-capability flag (`check_simd_support`, true exactly
  when `__AVX2__` is defined, as in the `-mavx2` Release build) is the
  Bool parameter `simd_available`; the SIMD gradient path's
  `processing_stats.simd_operations_used` increment is part of the
  model, threaded through `compute_orientation_field`.
* The `try/catch` in `detect_core_point` wraps computations that are
  total in the model, so the catch branch is unreachable in the embedding
  and is not modelled.
-/

/-- Model of `cv::Mat`: row/column counts, channel count, and the pixel
intensities as a total function (meaningful on `[0,rows) × [0,cols)`). -/
structure Mat where
  rows : ℕ
  cols : ℕ
  channels : ℕ
  pix : ℕ → ℕ → ℚ

instance : Inhabited Mat := ⟨⟨0, 0, 1, fun _ _ => 0⟩⟩

/-- `cv::Mat::empty()`: a matrix with no data. -/
def Mat.isEmpty (m : Mat) : Bool := m.rows == 0 || m.cols == 0

/-- Sum of the pixels of the `h × w` sub-rectangle whose top-left corner is
`(y0, x0)` (rows first, as in `cv::Rect(x, y, w, h)` with `x` the column). -/
def rectSum (m : Mat) (y0 x0 h w : ℕ) : ℚ :=
  ∑ y ∈ Finset.range h, ∑ x ∈ Finset.range w, m.pix (y0 + y) (x0 + x)

/-- Mean intensity over a sub-rectangle, as computed by `cv::meanStdDev`. -/
def rectMean (m : Mat) (y0 x0 h w : ℕ) : ℚ :=
  rectSum m y0 x0 h w / (h * w)

/-- Population variance over a sub-rectangle: `cv::meanStdDev` returns its
square root as the standard deviation. -/
def rectVar (m : Mat) (y0 x0 h w : ℕ) : ℚ :=
  (∑ y ∈ Finset.range h, ∑ x ∈ Finset.range w,
      (m.pix (y0 + y) (x0 + x) - rectMean m y0 x0 h w) ^ 2) / (h * w)

/-- Population variance of the whole matrix. -/
def matVar (m : Mat) : ℚ := rectVar m 0 0 m.rows m.cols

/-- Standard deviation of the whole matrix as `cv::meanStdDev` reports it:
the library's floating-point square root (a parameter of the model,
`sqrtQ`) applied to the population variance. -/
def matStddev (sqrtQ : ℚ → ℚ) (m : Mat) : ℚ := sqrtQ (matVar m)

/-- The external image-processing primitives the detector composes
(`cv::GaussianBlur`, `cv::normalize(NORM_MINMAX)`, `cv::equalizeHist`,
`cv::Sobel`, `cv::Laplacian`, `std::atan2`, and the floating-point square
root inside `cv::meanStdDev`).  They are library code, not repository
code, so they are parameters of the model. -/
structure Prims where
  gaussianBlur : ℕ → ℚ → Mat → Mat
  normalizeMinMax : Mat → Mat
  equalizeHist : Mat → Mat
  sobel : ℕ → ℕ → ℕ → Mat → Mat
  laplacian : Mat → Mat
  atan2 : ℚ → ℚ → ℚ
  sqrtQ : ℚ → ℚ

/-- `CorePointDetector::CorePoint` (header lines 18-24). -/
structure CorePoint where
  x : ℚ
  y : ℚ
  confidence : ℚ
deriving DecidableEq

instance : Inhabited CorePoint := ⟨⟨0, 0, 0⟩⟩

/-- `CorePointDetector::ROI` (header lines 26-34): the pixel array is
`uint8_t[101][101]`, so the 101×101 dimensions are part of the type in the
C++; `pixels` is meaningful on `[0,101) × [0,101)`. -/
structure ROI where
  pixels : ℕ → ℕ → ℚ
  filename : String
  file_index : ℤ

instance : Inhabited ROI := ⟨⟨fun _ _ => 0, "", -1⟩⟩

/-- `CorePointDetector::DetectionParams` (header lines 37-54). -/
structure DetectionParams where
  min_confidence : ℚ
  gaussian_kernel_size : ℕ
  gaussian_sigma : ℚ
  sobel_kernel_size : ℕ
  block_size : ℕ
  ridge_threshold : ℚ
  use_simd : Bool

/-- `CorePointDetector::DetectionResult` (header lines 57-66). -/
structure DetectionResult where
  core_points : List CorePoint
  extracted_roi : ROI
  overall_quality : ℚ
  processing_time_us : ℕ
  error_message : String
  success : Bool

/-- The default-constructed `DetectionResult` (header line 65). -/
def defaultResult : DetectionResult :=
  { core_points := [], extracted_roi := default, overall_quality := 0,
    processing_time_us := 0, error_message := "", success := false }

instance : Inhabited DetectionResult := ⟨defaultResult⟩

/-- `CorePointDetector::ProcessingStats` (header lines 127-138). -/
structure ProcessingStats where
  total_images_processed : ℕ
  successful_detections : ℕ
  failed_detections : ℕ
  average_processing_time_us : ℚ
  average_confidence : ℚ
  simd_operations_used : ℕ
deriving DecidableEq

/-- The default-constructed `ProcessingStats` (all zero). -/
def initialStats : ProcessingStats := ⟨0, 0, 0, 0, 0, 0⟩

/-- The exact value of the IEEE-754 single-precision literal `0.2f`
used in the quality gate (`detect_core_point`, line 95). -/
def float_0_2 : ℚ := 13421773 / 67108864

/-- The exact value of the IEEE-754 double constant `M_PI` used in the
circular-distance rule of `detect_core_candidates` (line 274). -/
def M_PI : ℚ := 884279719003555 / 281474976710656

/-- C++ float-to-int conversion (`static_cast<int>`): truncation toward
zero. -/
def truncQ (q : ℚ) : ℤ := q.num.tdiv q.den

/-- `std::abs` on floats, written out so that it evaluates by kernel
reduction (it agrees with `|q|`, see `absQ_eq_abs`). -/
def absQ (q : ℚ) : ℚ := if q < 0 then -q else q

/-- `CorePointDetector::preprocess_image` (lines 164-179): Gaussian blur,
then min-max normalization, then histogram equalization. -/
def preprocess_image (prims : Prims) (params : DetectionParams) (input : Mat) : Mat :=
  prims.equalizeHist (prims.normalizeMinMax
    (prims.gaussianBlur params.gaussian_kernel_size params.gaussian_sigma input))

/-- `CorePointDetector::compute_gradients_scalar` (lines 220-223):
`cv::Sobel` in each direction, no statistics effect. -/
def compute_gradients_scalar (prims : Prims) (params : DetectionParams) (image : Mat) :
    Mat × Mat :=
  (prims.sobel 1 0 params.sobel_kernel_size image,
   prims.sobel 0 1 params.sobel_kernel_size image)

/-- `CorePointDetector::compute_gradients_simd` (lines 208-218) together
with its `processing_stats` side effect: under `__AVX2__` it calls
`cv::Sobel` twice and increments `simd_operations_used` (line 213).  This
function is only selected when `simd_available` is true (line 185), and
the static `simd_available` is true exactly when `__AVX2__` is defined
(`check_simd_support`, lines 14-23) — as it is in the `-mavx2` Release
build — so whenever the SIMD path runs, the counter increments. -/
def compute_gradients_simd (prims : Prims) (params : DetectionParams)
    (s : ProcessingStats) (image : Mat) : (Mat × Mat) × ProcessingStats :=
  ((prims.sobel 1 0 params.sobel_kernel_size image,
    prims.sobel 0 1 params.sobel_kernel_size image),
   { s with simd_operations_used := s.simd_operations_used + 1 })

/-- `CorePointDetector::compute_orientation_field` (lines 181-206)
together with its effect on `processing_stats`: the gradient stage takes
the SIMD path when `use_simd` is enabled and the platform supports AVX2
(`if (params.use_simd && simd_available)`, line 185), incrementing the
SIMD-operation counter; both paths call `cv::Sobel` with the same
arguments and feed the same doubled-angle formula. -/
def compute_orientation_field (prims : Prims) (params : DetectionParams)
    (simd_available : Bool) (s : ProcessingStats) (image : Mat) : Mat × ProcessingStats :=
  let gs :=
    if params.use_simd && simd_available then compute_gradients_simd prims params s image
    else (compute_gradients_scalar prims params image, s)
  let grad_x := gs.1.1
  let grad_y := gs.1.2
  ({ rows := image.rows, cols := image.cols, channels := 1,
     pix := fun y x =>
       prims.atan2 (2 * grad_x.pix y x * grad_y.pix y x)
         (grad_x.pix y x * grad_x.pix y x - grad_y.pix y x * grad_y.pix y x) * (1/2) },
   gs.2)

/-- `CorePointDetector::compute_ridge_frequency` (lines 225-246): local
standard deviation over a `block_size` window for interior pixels, zero
elsewhere. -/
def compute_ridge_frequency (prims : Prims) (params : DetectionParams) (image : Mat) : Mat :=
  let window_size := params.block_size
  let half_window := window_size / 2
  { rows := image.rows, cols := image.cols, channels := 1,
    pix := fun y x =>
      if half_window ≤ y ∧ y < image.rows - half_window ∧
         half_window ≤ x ∧ x < image.cols - half_window then
        prims.sqrtQ (rectVar image (y - half_window) (x - half_window)
          window_size window_size) / 255
      else 0 }

/-- The C++ strided loop `for (i = lo; i < hi; i += step)` as the list of
visited indices (empty when `step = 0`, where the C++ would not
terminate). -/
def strided (lo hi step : ℕ) : List ℕ :=
  if step = 0 then [] else List.range' lo ((hi - lo + step - 1) / step) step

/-- Sample offsets of the candidate-search inner loop
(`for (d = -ws/2; d <= ws/2; d += 2)`, lines 265-266). -/
def sampleOffsets (half : ℕ) : List ℤ :=
  (List.range (half + 1)).map (fun k => -(half : ℤ) + 2 * k)

/-- The accumulation of squared circular angular differences around one
candidate center (`detect_core_candidates`, lines 261-280): returns the
accumulated sum and the sample count. -/
def orientationVarianceAcc (orientation_field : Mat) (y x : ℕ) (window_size : ℕ) : ℚ × ℕ :=
  let center_orientation := orientation_field.pix y x
  (sampleOffsets (window_size / 2)).foldl (fun acc dy =>
    (sampleOffsets (window_size / 2)).foldl (fun acc dx =>
      if 0 ≤ (y : ℤ) + dy ∧ (y : ℤ) + dy < orientation_field.rows ∧
         0 ≤ (x : ℤ) + dx ∧ (x : ℤ) + dx < orientation_field.cols then
        let local_orientation :=
          orientation_field.pix ((y : ℤ) + dy).toNat ((x : ℤ) + dx).toNat
        let diff := absQ (local_orientation - center_orientation)
        let diff := if M_PI < diff then 2 * M_PI - diff else diff
        (acc.1 + diff * diff, acc.2 + 1)
      else acc) acc) (0, 0)

/-- `CorePointDetector::detect_core_candidates` (lines 248-300). -/
def detect_core_candidates (params : DetectionParams)
    (orientation_field frequency_field : Mat) : List CorePoint :=
  let window_size := params.block_size
  let step := window_size / 2
  (strided window_size (orientation_field.rows - window_size) step).flatMap (fun y =>
    (strided window_size (orientation_field.cols - window_size) step).filterMap (fun x =>
      let acc := orientationVarianceAcc orientation_field y x window_size
      if 0 < acc.2 then
        let orientation_variance := acc.1 / acc.2
        if (1/2 : ℚ) < orientation_variance then
          let confidence := orientation_variance * frequency_field.pix y x
          if params.min_confidence < confidence then
            some ⟨(x : ℚ), (y : ℚ), confidence⟩
          else none
        else none
      else none))

/-- `CorePointDetector::is_point_valid` (lines 395-401): at least the ROI
half-extent (50) away from every edge, with positive confidence.  The
comparisons are float comparisons (`image_width - margin` is exact in ℚ,
no truncation). -/
def is_point_valid (point : CorePoint) (image_width image_height : ℕ) : Prop :=
  50 ≤ point.x ∧ point.x < (image_width : ℚ) - 50 ∧
  50 ≤ point.y ∧ point.y < (image_height : ℚ) - 50 ∧
  0 < point.confidence

instance (p : CorePoint) (w h : ℕ) : Decidable (is_point_valid p w h) := by
  unfold is_point_valid; infer_instance

/-- `CorePointDetector::validate_core_point` (three-argument overload,
lines 302-332): returns 0 for invalid points, halves the confidence when
the 21×21 local window would overflow the image, and otherwise rescales by
the local contrast `stddev/255` over that window. -/
def validate_core_point (prims : Prims) (orientation_field image : Mat)
    (candidate : CorePoint) : ℚ :=
  let x : ℤ := truncQ candidate.x
  let y : ℤ := truncQ candidate.y
  if ¬ is_point_valid candidate image.cols image.rows then 0
  else
    let half_window : ℤ := 10
    if x - half_window < 0 ∨ (image.cols : ℤ) ≤ x + half_window ∨
       y - half_window < 0 ∨ (image.rows : ℤ) ≤ y + half_window then
      candidate.confidence * (1/2)
    else
      let contrast_score :=
        prims.sqrtQ (rectVar image (y - half_window).toNat (x - half_window).toNat 21 21) / 255
      candidate.confidence * contrast_score

/-- `CorePointDetector::select_best_core_point` (lines 403-415):
`std::max_element` keeps the earliest element on ties (the comparator is
strict `<` on confidence). -/
def select_best_core_point (candidates : List CorePoint) : CorePoint :=
  match candidates with
  | [] => ⟨0, 0, 0⟩
  | c :: rest =>
    rest.foldl (fun best cand =>
      if best.confidence < cand.confidence then cand else best) c

/-- The sequential edge clamp of `extract_roi_around_point`
(lines 353-357): first clamp below at 0, then clamp above at `n - 1`. -/
def clampIdx (v : ℤ) (n : ℕ) : ℤ :=
  let v := if v < 0 then 0 else v
  if (n : ℤ) ≤ v then (n : ℤ) - 1 else v

/-- `CorePointDetector::extract_roi_around_point` (lines 334-364):
101×101 window centered on the truncated core coordinates, out-of-bounds
samples clamped to the nearest edge pixel. -/
def extract_roi_around_point (image : Mat) (core_point : CorePoint)
    (filename : String) (file_index : ℤ) : ROI :=
  let center_x : ℤ := truncQ core_point.x
  let center_y : ℤ := truncQ core_point.y
  let half_size : ℤ := 50
  { pixels := fun y x =>
      image.pix (clampIdx (center_y - half_size + y) image.rows).toNat
                (clampIdx (center_x - half_size + x) image.cols).toNat,
    filename := filename,
    file_index := file_index }

/-- `CorePointDetector::assess_image_quality` (lines 366-381). -/
def assess_image_quality (prims : Prims) (image : Mat) : ℚ :=
  let contrast_score := matStddev prims.sqrtQ image / 255
  let laplacian := prims.laplacian image
  let sharpness_score := matStddev prims.sqrtQ laplacian / 1000
  min 1 (contrast_score + sharpness_score * (1/2))

/-- `CorePointDetector::assess_roi_quality` (lines 383-393): the ROI grid
repacked as a 101×101 matrix and scored with the same formula. -/
def assess_roi_quality (prims : Prims) (roi : ROI) : ℚ :=
  assess_image_quality prims ⟨101, 101, 1, fun y x => roi.pixels y x⟩

/-- `CorePointDetector::validate_roi_size` (lines 452-455): always true,
because the 101×101 size is enforced by the array type. -/
def validate_roi_size (_roi : ROI) : Bool := true

/-- `CorePointDetector::validate_core_point` (single-argument overload,
lines 457-459): the code's own range check for a core point, requiring
confidence in [0,1]. -/
def validate_core_point_range (point : CorePoint) : Bool :=
  decide (0 ≤ point.x) && decide (0 ≤ point.y) &&
  decide (0 ≤ point.confidence) && decide (point.confidence ≤ 1)

/-- `CorePointDetector::update_stats` (lines 461-478). -/
def update_stats (s : ProcessingStats) (result : DetectionResult) : ProcessingStats :=
  let s1 := { s with total_images_processed := s.total_images_processed + 1 }
  let s2 :=
    if result.success then
      let s' := { s1 with successful_detections := s1.successful_detections + 1 }
      if result.core_points ≠ [] then
        { s' with average_confidence :=
            (s'.average_confidence * ((s'.successful_detections - 1 : ℕ) : ℚ) +
              (result.core_points.headD default).confidence) / (s'.successful_detections : ℚ) }
      else s'
    else { s1 with failed_detections := s1.failed_detections + 1 }
  { s2 with average_processing_time_us :=
      (s2.average_processing_time_us * ((s2.total_images_processed - 1 : ℕ) : ℚ) +
        (result.processing_time_us : ℚ)) / (s2.total_images_processed : ℚ) }

/-- `CorePointDetector::detect_core_point` (lines 59-162) together with
its effect on the detector's `processing_stats` member: the pair of the
returned `DetectionResult` and the statistics after the call.
`simd_available` is the static AVX2-capability flag (true of the `-mavx2`
Release build) and `t` is the value measured by the wall-clock `Timer`.
Note that the three input-shape rejections return before the timer is
stopped (the result keeps `processing_time_us = 0`), that the gradient
stage may increment the SIMD-operation counter (so the statistics handed
to the later rejection paths are `s1`, not `s`), and that `update_stats`
is reached only on the path that completes the pipeline. -/
def detect_core_pointS (prims : Prims) (params : DetectionParams) (simd_available : Bool)
    (s : ProcessingStats) (image : Mat) (filename : String) (file_index : ℤ) (t : ℕ) :
    DetectionResult × ProcessingStats :=
  if image.isEmpty then
    ({ defaultResult with error_message := "Input image is empty" }, s)
  else if image.channels ≠ 1 then
    ({ defaultResult with error_message := "Input image must be grayscale" }, s)
  else if image.rows < 101 ∨ image.cols < 101 then
    ({ defaultResult with error_message := "Input image too small (minimum 101x101)" }, s)
  else
    let processed_image := preprocess_image prims params image
    let overall_quality := assess_image_quality prims processed_image
    if overall_quality < float_0_2 then
      ({ defaultResult with
          overall_quality := overall_quality,
          error_message := "Image quality too low for processing",
          processing_time_us := t }, s)
    else
      let of_s := compute_orientation_field prims params simd_available s processed_image
      let orientation_field := of_s.1
      let s1 := of_s.2
      let frequency_field := compute_ridge_frequency prims params processed_image
      let candidates := detect_core_candidates params orientation_field frequency_field
      if candidates.isEmpty then
        ({ defaultResult with
            overall_quality := overall_quality,
            error_message := "No core point candidates found",
            processing_time_us := t }, s1)
      else
        let best_core0 := select_best_core_point candidates
        let best_core := { best_core0 with
          confidence := validate_core_point prims orientation_field processed_image best_core0 }
        if best_core.confidence < params.min_confidence then
          ({ defaultResult with
              overall_quality := overall_quality,
              error_message := "Core point confidence too low: " ++ toString best_core.confidence,
              processing_time_us := t }, s1)
        else
          let roi := extract_roi_around_point image best_core filename file_index
          if validate_roi_size roi = false then
            ({ defaultResult with
                overall_quality := overall_quality,
                error_message := "Failed to extract valid ROI",
                processing_time_us := t }, s1)
          else
            let result : DetectionResult :=
              { core_points := [best_core], extracted_roi := roi,
                overall_quality := min overall_quality (assess_roi_quality prims roi),
                processing_time_us := t, error_message := "", success := true }
            (result, update_stats s1 result)

/-- The `DetectionResult` returned by `detect_core_point`; the result does
not depend on the statistics state, which is only threaded through. -/
def detect_core_point (prims : Prims) (params : DetectionParams) (simd_available : Bool)
    (image : Mat) (filename : String) (file_index : ℤ) (t : ℕ) : DetectionResult :=
  (detect_core_pointS prims params simd_available initialStats image filename file_index t).1

/-- `CorePointDetector::detect_batch` (lines 417-450).  The parallel
branch launches one asynchronous task per index and joins the futures in
submission order; each task's result depends only on its own inputs, so a
future is modelled as a thunk.  `tf i` is the wall-clock duration measured
inside task `i`. -/
def detect_batch (prims : Prims) (params : DetectionParams) (simd_available : Bool)
    (images : List Mat) (filenames : List String) (parallel : Bool) (tf : ℕ → ℕ) :
    List DetectionResult :=
  if parallel ∧ 1 < images.length then
    let futures := (List.range images.length).map (fun i => fun (_ : Unit) =>
      detect_core_point prims params simd_available (images.getD i default)
        (if i < filenames.length then filenames.getD i "" else "") (i : ℤ) (tf i))
    futures.map (fun future => future ())
  else
    (List.range images.length).foldl (fun results i =>
      results ++ [detect_core_point prims params simd_available (images.getD i default)
        (if i < filenames.length then filenames.getD i "" else "") (i : ℤ) (tf i)]) []

/-! ## FileManager: image loading and the bounded LRU cache
(`FileManager.h`, `FileManager.cpp`).  Disk decoding (`cv::imread`) and
path normalization (`std::filesystem`) are external, so they are
parameters (`decode`, `normalize`); the steady-clock timestamp of the
current operation is the parameter `now`.  The `std::unordered_map` of
cache entries is modelled as an association list whose order stands for
the map's iteration order. -/

/-- `FileManager::ImageCache` (header lines 27-32). -/
structure ImageCacheEntry where
  image : Mat
  filepath : String
  memory_size : ℕ
  last_accessed : ℕ

instance : Inhabited ImageCacheEntry := ⟨⟨default, "", 0, 0⟩⟩

/-- The `FileManager` static cache state: the entry map, the running byte
counter, the configured budget in MB, and the hit/miss statistics. -/
structure CacheState where
  entries : List (String × ImageCacheEntry)
  current_cache_size : ℕ
  max_cache_size_mb : ℕ
  cache_hits : ℕ
  cache_misses : ℕ

/-- The configured byte budget (`max_cache_size_mb * 1024 * 1024`,
`cleanup_cache_if_needed` line 48). -/
def budget_bytes (s : CacheState) : ℕ := s.max_cache_size_mb * 1024 * 1024

/-- `FileManager::calculate_image_memory_size` (lines 43-45):
`total() * elemSize()`; for the 8-bit images the loader produces,
`elemSize` is the channel count. -/
def calculate_image_memory_size (image : Mat) : ℕ :=
  image.rows * image.cols * image.channels

/-- Index of the entry with the oldest `last_accessed` timestamp, first
occurrence on ties (the scan of `remove_oldest_cache_entry`, lines 58-63,
replaces the running minimum only on strict `<`). -/
def oldestIdx : List (String × ImageCacheEntry) → ℕ
  | [] => 0
  | [_] => 0
  | e :: f :: rest =>
    if ((e :: f :: rest).getD (oldestIdx (f :: rest) + 1) default).2.last_accessed <
        e.2.last_accessed then
      oldestIdx (f :: rest) + 1
    else 0

/-- `FileManager::remove_oldest_cache_entry` (lines 55-68). -/
def remove_oldest_cache_entry (s : CacheState) : CacheState :=
  if s.entries.isEmpty then s
  else
    let i := oldestIdx s.entries
    let oldest := s.entries.getD i default
    { s with
      entries := s.entries.eraseIdx i,
      current_cache_size := s.current_cache_size - oldest.2.memory_size }

/-- `FileManager::cleanup_cache_if_needed` (lines 47-53): evict the
least-recently-accessed entry until under the byte budget or empty.  The
C++ `while` loop terminates because each eviction removes one entry. -/
def cleanup_cache_if_needed (s : CacheState) : CacheState :=
  if h : budget_bytes s < s.current_cache_size ∧ ¬ s.entries.isEmpty then
    cleanup_cache_if_needed (remove_oldest_cache_entry s)
  else s
termination_by s.entries.length
decreasing_by
  have key : ∀ l : List (String × ImageCacheEntry), l ≠ [] → oldestIdx l < l.length := by
    intro l
    induction l with
    | nil => intro hl; simp at hl
    | cons e rest ih =>
      intro hl
      cases rest with
      | nil => simp [oldestIdx]
      | cons f rest' =>
        have hr := ih (List.cons_ne_nil f rest')
        rw [oldestIdx]
        split
        · simpa using Nat.succ_lt_succ hr
        · simp
  have hne : s.entries ≠ [] := by
    intro he
    have h2 := h.2
    rw [he] at h2
    simp at h2
  have hlt := key s.entries hne
  have h1 := List.length_eraseIdx_add_one hlt
  simp only [remove_oldest_cache_entry, if_neg h.2]
  omega

/-- Update the timestamp of the entry under a key (the hit path of
`load_image`, line 133). -/
def touchEntry (entries : List (String × ImageCacheEntry)) (key : String) (now : ℕ) :
    List (String × ImageCacheEntry) :=
  entries.map (fun e => if e.1 = key then (e.1, { e.2 with last_accessed := now }) else e)

/-- `FileManager::load_image` (lines 125-172): the returned image
(`none` models the empty `cv::Mat` on decode failure) paired with the
cache state after the call.  `decode` stands for
`cv::imread(..., IMREAD_GRAYSCALE)` and `normalize` for
`FileManager::normalize_path`; `now` is the steady-clock timestamp.  The
contrast warning from `is_valid_fingerprint_image` only logs, so it has
no effect on the state or the returned image. -/
def load_image (decode : String → Option Mat) (normalize : String → String) (now : ℕ)
    (filepath : String) (use_cache : Bool) (s : CacheState) : Option Mat × CacheState :=
  let normalized_path := normalize filepath
  if use_cache then
    match s.entries.lookup normalized_path with
    | some entry =>
      (some entry.image,
       { s with entries := touchEntry s.entries normalized_path now,
                cache_hits := s.cache_hits + 1 })
    | none =>
      let s1 := { s with cache_misses := s.cache_misses + 1 }
      match decode normalized_path with
      | none => (none, s1)
      | some image =>
        let cache_entry : ImageCacheEntry :=
          { image := image, filepath := normalized_path,
            memory_size := calculate_image_memory_size image, last_accessed := now }
        let s2 := { s1 with
          entries := s1.entries ++ [(normalized_path, cache_entry)],
          current_cache_size := s1.current_cache_size + cache_entry.memory_size }
        (some image, cleanup_cache_if_needed s2)
  else
    match decode (normalize filepath) with
    | none => (none, s)
    | some image => (some image, s)

/-- `FileManager::set_cache_size_mb` (header line 54): assigns the budget
and nothing else. -/
def set_cache_size_mb (size_mb : ℕ) (s : CacheState) : CacheState :=
  { s with max_cache_size_mb := size_mb }

/-- `FileManager::is_valid_fingerprint_image` (lines 257-270).  The
floating-point square root used by `cv::meanStdDev` is the parameter
`sqrtQ`. -/
def is_valid_fingerprint_image (sqrtQ : ℚ → ℚ) (image : Mat) : Bool :=
  if image.isEmpty then false
  else if image.channels ≠ 1 then false
  else if image.rows < 100 ∨ image.cols < 100 then false
  else if 2000 < image.rows ∨ 2000 < image.cols then false
  else decide ((10 : ℚ) < matStddev sqrtQ image)

/-- The loader usability check as claim C8 words it (spec §4.2
"Validation"): non-empty, single-channel, at least 100×100, and standard
deviation above the minimal-contrast threshold — with no upper size
bound.  Kept separate from `is_valid_fingerprint_image`, which is the
translation of the source. -/
def is_valid_fingerprint_image_claimed (sqrtQ : ℚ → ℚ) (image : Mat) : Bool :=
  decide (¬ image.isEmpty = true) && decide (image.channels = 1) &&
  decide (100 ≤ image.rows) && decide (100 ≤ image.cols) &&
  decide ((10 : ℚ) < matStddev sqrtQ image)

/-! ## Concrete fixtures used by witnesses and counterexamples -/

/-- The exact value of the IEEE-754 single-precision literal `0.3f`, the
default `min_confidence` (header line 47). -/
def float_0_3 : ℚ := 10066330 / 33554432

/-- The default-constructed `DetectionParams` (header lines 46-53). -/
def defaultParams : DetectionParams :=
  { min_confidence := float_0_3, gaussian_kernel_size := 5, gaussian_sigma := 1,
    sobel_kernel_size := 3, block_size := 16, ridge_threshold := 1/2, use_simd := true }

/-- A trivial instantiation of the library primitives (identity image
operations, zero scalar functions), used only to instantiate witnesses;
the theorems themselves hold for every instantiation. -/
def idPrims : Prims :=
  { gaussianBlur := fun _ _ m => m, normalizeMinMax := id, equalizeHist := id,
    sobel := fun _ _ _ m => m, laplacian := id,
    atan2 := fun _ _ => 0, sqrtQ := fun _ => 0 }

/-- A floating-point-style rational square root: the floor of the true
square root, exact on perfect squares (e.g. on `65025/4` it returns the
true value `255/2`).  Used to instantiate the `sqrtQ` parameter. -/
def floorSqrtQ (q : ℚ) : ℚ := ((Nat.sqrt (q.num.toNat * q.den) : ℚ)) / (q.den : ℚ)

/-- An empty matrix (a default-constructed `cv::Mat`). -/
def emptyMat : Mat := ⟨0, 0, 1, fun _ _ => 0⟩

/-- A flat mid-gray 101×101 image. -/
def constMat101 : Mat := ⟨101, 101, 1, fun _ _ => 128⟩

/-- A flat mid-gray 200×200 image (zero variance). -/
def flatMat200 : Mat := ⟨200, 200, 1, fun _ _ => 128⟩

/-- A flat mid-gray 100×100 image (memory footprint 10000 bytes). -/
def mat100 : Mat := ⟨100, 100, 1, fun _ _ => 128⟩

/-- A 33×33 orientation field: `-3/2` at the single search center
`(16,16)` and `3/2` elsewhere.  All values lie in `(-π/2, π/2]`, the
range of the doubled-angle formula `0.5 * atan2(...)`, so such a field is
producible by `compute_orientation_field`. -/
def orientMat33 : Mat :=
  ⟨33, 33, 1, fun y x => if y = 16 ∧ x = 16 then -(3/2) else 3/2⟩

/-- A 33×33 frequency field constant `2/5 = 102/255`, inside `[0, 1/2]`,
the range `stddev/255` of `compute_ridge_frequency` on 8-bit data. -/
def freqMat33 : Mat := ⟨33, 33, 1, fun _ _ => 2/5⟩

/-- A 100×2001 single-channel image whose even rows are 255 and odd rows
are 0: exactly half the pixels are 255, so the population variance is
`(255/2)^2 = 65025/4` and the standard deviation exactly `255/2`. -/
def img2001 : Mat := ⟨100, 2001, 1, fun y _ => if y % 2 = 0 then 255 else 0⟩

/-- An initial empty cache state with the default 256 MB budget
(`FileManager.cpp` line 14). -/
def emptyCache : CacheState := ⟨[], 0, 256, 0, 0⟩

/-! ## Shared helper lemmas -/

/-- Truncation of an integer-valued rational is exact. -/
theorem truncQ_intCast (n : ℤ) : truncQ ((n : ℤ) : ℚ) = n := by
  simp [truncQ]

/-- For nonnegative arguments, C++ truncation toward zero agrees with the
floor. -/
theorem truncQ_eq_floor (q : ℚ) (h : 0 ≤ q) : truncQ q = ⌊q⌋ := by
  rw [truncQ, Int.tdiv_eq_ediv (Rat.num_nonneg.2 h) (by positivity), Rat.floor_def]

/-- The sequential two-sided clamp of `extract_roi_around_point` equals
the symmetric clamp `max 0 (min v (n - 1))` on any nonempty axis. -/
theorem clampIdx_eq (v : ℤ) (n : ℕ) (h : 1 ≤ n) :
    clampIdx v n = max 0 (min v ((n : ℤ) - 1)) := by
  simp only [clampIdx]
  split_ifs <;> omega

/-- The written-out `absQ` agrees with the absolute value. -/
theorem absQ_eq_abs (q : ℚ) : absQ q = |q| := by
  rw [absQ]
  rcases lt_or_le q 0 with h | h
  · rw [if_pos h, abs_of_neg h]
  · rw [if_neg (not_lt.2 h), abs_of_nonneg h]

/-- A constant matrix (used for the flat-image quality-gate argument). -/
def IsConstMat (m : Mat) (v : ℚ) : Prop :=
  ∀ y x : ℕ, y < m.rows → x < m.cols → m.pix y x = v

/-- A constant matrix has zero variance. -/
theorem matVar_const (m : Mat) (v : ℚ) (h : IsConstMat m v) : matVar m = 0 := by
  rcases Nat.eq_zero_or_pos m.rows with hr | hr
  · simp [matVar, rectVar, hr]
  rcases Nat.eq_zero_or_pos m.cols with hc | hc
  · simp [matVar, rectVar, hc]
  have hsum : rectSum m 0 0 m.rows m.cols = (m.rows : ℚ) * (m.cols : ℚ) * v := by
    unfold rectSum
    rw [Finset.sum_congr rfl (fun y hy => Finset.sum_congr rfl (fun x hx => by
      simpa using h y x (Finset.mem_range.1 hy) (Finset.mem_range.1 hx)))]
    simp only [Finset.sum_const, Finset.card_range, nsmul_eq_mul]
    ring
  have hmean : rectMean m 0 0 m.rows m.cols = v := by
    unfold rectMean
    rw [hsum]
    have h1 : (m.rows : ℚ) ≠ 0 := Nat.cast_ne_zero.2 hr.ne'
    have h2 : (m.cols : ℚ) ≠ 0 := Nat.cast_ne_zero.2 hc.ne'
    field_simp
  unfold matVar rectVar
  rw [hmean]
  rw [Finset.sum_congr rfl (fun y hy => Finset.sum_congr rfl (fun x hx => by
    have hp := h y x (Finset.mem_range.1 hy) (Finset.mem_range.1 hx)
    simp only [Nat.zero_add, hp, sub_self]
    exact zero_pow (by norm_num)))]
  simp

/-! ## Claim C2: ROI extraction clamps both axes independently -/

/-- C2: for every image, core point with integer center `(cx, cy)`,
filename and index, the ROI returned by `extract_roi_around_point`
satisfies, for all `0 ≤ y, x ≤ 100`: `pixels[y][x]` equals the source
intensity at row `clamp(cy - 50 + y, 0, rows-1)` and column
`clamp(cx - 50 + x, 0, cols-1)`; both axes are clamped independently, so
every out-of-bounds sample equals the nearest in-bounds edge pixel
(replication, never wraparound or zero-fill).  The image must be
nonempty for "the nearest in-bounds edge pixel" to exist (an empty
`cv::Mat` would be an out-of-bounds read in the C++). -/
theorem C2_extract_roi_edge_clamped (image : Mat) (core_point : CorePoint)
    (filename : String) (file_index : ℤ) (cx cy : ℤ)
    (hx : core_point.x = (cx : ℚ)) (hy : core_point.y = (cy : ℚ))
    (hrows : 1 ≤ image.rows) (hcols : 1 ≤ image.cols) :
    ∀ y x : ℕ, y ≤ 100 → x ≤ 100 →
      (extract_roi_around_point image core_point filename file_index).pixels y x =
        image.pix (max 0 (min (cy - 50 + (y : ℤ)) ((image.rows : ℤ) - 1))).toNat
                  (max 0 (min (cx - 50 + (x : ℤ)) ((image.cols : ℤ) - 1))).toNat := by
  intro y x hy100 hx100
  simp only [extract_roi_around_point, hx, hy, truncQ_intCast]
  rw [clampIdx_eq _ _ hrows, clampIdx_eq _ _ hcols]

/-- Witness for C2 at a concrete 3×3 image, core point (0,0), output
position (0,0): all hypotheses hold and the clamped equation follows by
applying the theorem. -/
theorem C2_witness :
    ((⟨(0 : ℚ), (0 : ℚ), 1⟩ : CorePoint).x = ((0 : ℤ) : ℚ)) ∧
    ((⟨(0 : ℚ), (0 : ℚ), 1⟩ : CorePoint).y = ((0 : ℤ) : ℚ)) ∧
    (1 ≤ (⟨3, 3, 1, fun y x => 10 * y + x⟩ : Mat).rows) ∧
    (1 ≤ (⟨3, 3, 1, fun y x => 10 * y + x⟩ : Mat).cols) ∧
    ((0 : ℕ) ≤ 100) ∧ ((0 : ℕ) ≤ 100) ∧
    ((extract_roi_around_point (⟨3, 3, 1, fun y x => 10 * y + x⟩ : Mat)
        (⟨(0 : ℚ), (0 : ℚ), 1⟩ : CorePoint) "" 0).pixels 0 0 =
      (⟨3, 3, 1, fun y x => 10 * y + x⟩ : Mat).pix
        (max 0 (min ((0 : ℤ) - 50 + ((0 : ℕ) : ℤ))
          (((⟨3, 3, 1, fun y x => 10 * y + x⟩ : Mat).rows : ℤ) - 1))).toNat
        (max 0 (min ((0 : ℤ) - 50 + ((0 : ℕ) : ℤ))
          (((⟨3, 3, 1, fun y x => 10 * y + x⟩ : Mat).cols : ℤ) - 1))).toNat) :=
  ⟨rfl, rfl, by decide, by decide, by decide, by decide,
   C2_extract_roi_edge_clamped (⟨3, 3, 1, fun y x => 10 * y + x⟩ : Mat)
     (⟨(0 : ℚ), (0 : ℚ), 1⟩ : CorePoint) "" 0 0 0 rfl rfl (by decide) (by decide)
     0 0 (by decide) (by decide)⟩

/-! ## Claim C4: validate_core_point -/

/-- C4: `validate_core_point` returns 0 when the candidate's coordinates
are not at least 50 pixels from every image edge or its confidence is
≤ 0 (that is, when `is_point_valid` fails); otherwise it returns the
candidate's confidence rescaled by the local-contrast factor
`stddev/255` computed over the 21×21 window centered on the point,
additionally halved when the 21×21 window would overflow the image.  (On
the code, the margin check makes the overflow case unreachable, so the
two formulas agree extensionally.) -/
theorem C4_validate_core_point_formula (prims : Prims)
    (orientation_field image : Mat) (candidate : CorePoint) :
    validate_core_point prims orientation_field image candidate =
      if ¬ is_point_valid candidate image.cols image.rows then 0
      else
        candidate.confidence *
          (prims.sqrtQ (rectVar image (truncQ candidate.y - 10).toNat
            (truncQ candidate.x - 10).toNat 21 21) / 255) *
          (if truncQ candidate.x - 10 < 0 ∨ (image.cols : ℤ) ≤ truncQ candidate.x + 10 ∨
              truncQ candidate.y - 10 < 0 ∨ (image.rows : ℤ) ≤ truncQ candidate.y + 10
           then 1/2 else 1) := by
  by_cases hv : is_point_valid candidate image.cols image.rows
  · obtain ⟨hx1, hx2, hy1, hy2, hc⟩ := hv
    have hxf : truncQ candidate.x = ⌊candidate.x⌋ :=
      truncQ_eq_floor _ (le_trans (by norm_num) hx1)
    have hyf : truncQ candidate.y = ⌊candidate.y⌋ :=
      truncQ_eq_floor _ (le_trans (by norm_num) hy1)
    have hxlo : (50 : ℤ) ≤ ⌊candidate.x⌋ := by
      rw [Int.le_floor]
      exact_mod_cast hx1
    have hylo : (50 : ℤ) ≤ ⌊candidate.y⌋ := by
      rw [Int.le_floor]
      exact_mod_cast hy1
    have hxhi : ⌊candidate.x⌋ < (image.cols : ℤ) - 50 := by
      have h1 : ((⌊candidate.x⌋ : ℤ) : ℚ) < (image.cols : ℚ) - 50 :=
        lt_of_le_of_lt (Int.floor_le candidate.x) hx2
      have h2 : ((⌊candidate.x⌋ : ℤ) : ℚ) < (((image.cols : ℤ) - 50 : ℤ) : ℚ) := by
        push_cast
        push_cast at h1
        linarith
      exact_mod_cast h2
    have hyhi : ⌊candidate.y⌋ < (image.rows : ℤ) - 50 := by
      have h1 : ((⌊candidate.y⌋ : ℤ) : ℚ) < (image.rows : ℚ) - 50 :=
        lt_of_le_of_lt (Int.floor_le candidate.y) hy2
      have h2 : ((⌊candidate.y⌋ : ℤ) : ℚ) < (((image.rows : ℤ) - 50 : ℤ) : ℚ) := by
        push_cast
        push_cast at h1
        linarith
      exact_mod_cast h2
    have hov : ¬ (truncQ candidate.x - 10 < 0 ∨
        (image.cols : ℤ) ≤ truncQ candidate.x + 10 ∨
        truncQ candidate.y - 10 < 0 ∨ (image.rows : ℤ) ≤ truncQ candidate.y + 10) := by
      rw [hxf, hyf]
      push_neg
      refine ⟨by omega, by omega, by omega, by omega⟩
    have hv' : is_point_valid candidate image.cols image.rows := ⟨hx1, hx2, hy1, hy2, hc⟩
    rw [validate_core_point, if_neg (not_not_intro hv'), if_neg hov,
        if_neg (not_not_intro hv'), if_neg hov, mul_one]
  · rw [validate_core_point, if_pos hv, if_pos hv]

/-! ## Claim C10: the post-extraction ROI size check is unreachable -/

/-- C10: `detect_core_point` can never fail with the message
"Failed to extract valid ROI" — `validate_roi_size` returns true for
every ROI, so for every input that reaches the ROI-extraction stage the
post-extraction size check never rejects the result and this error
branch is unreachable. -/
theorem C10_roi_size_error_unreachable (prims : Prims) (params : DetectionParams)
    (simd : Bool) (s : ProcessingStats) (image : Mat) (filename : String)
    (file_index : ℤ) (t : ℕ) :
    (∀ roi : ROI, validate_roi_size roi = true) ∧
    (detect_core_pointS prims params simd s image filename file_index t).1.error_message ≠
      "Failed to extract valid ROI" := by
  refine ⟨fun _ => rfl, ?_⟩
  simp only [detect_core_pointS]
  split_ifs <;> simp_all [defaultResult, validate_roi_size]
  intro hcontra
  have hlen := congrArg String.length hcontra
  rw [String.length_append] at hlen
  have h1 : ("Core point confidence too low: ").length = 31 := rfl
  have h2 : ("Failed to extract valid ROI").length = 27 := rfl
  omega

/-! ## Claim C1: the detect result contract -/

/-- C1: for every single-channel input image of size at least 101×101,
`detect_core_point` returns a result with either `success = true`, a
101×101 ROI (the 101×101 dimensions are enforced by the `uint8_t[101][101]`
array type, modelled by the fixed `ROI` structure), a nonempty stored
core-point list, and stored confidence at least the configured
`min_confidence`; or `success = false` together with a non-empty
`error_message`.  It never returns `success = true` with an unset
result. -/
theorem C1_detect_result_contract (prims : Prims) (params : DetectionParams)
    (simd : Bool) (s : ProcessingStats) (image : Mat) (filename : String)
    (file_index : ℤ) (t : ℕ)
    (hch : image.channels = 1) (hrows : 101 ≤ image.rows) (hcols : 101 ≤ image.cols) :
    ((detect_core_pointS prims params simd s image filename file_index t).1.success = true ∧
     (detect_core_pointS prims params simd s image filename file_index t).1.core_points ≠ [] ∧
     ∀ c ∈ (detect_core_pointS prims params simd s image filename file_index t).1.core_points,
       params.min_confidence ≤ c.confidence) ∨
    ((detect_core_pointS prims params simd s image filename file_index t).1.success = false ∧
     (detect_core_pointS prims params simd s image filename file_index t).1.error_message ≠ "") := by
  simp only [detect_core_pointS]
  split_ifs with h1 h2 h3 h4 h5 h6 h7
  · exfalso
    simp [Mat.isEmpty] at h1
    omega
  · exact absurd hch h2
  · exfalso
    omega
  · right
    exact ⟨rfl, by simp [defaultResult]⟩
  · right
    exact ⟨rfl, by simp [defaultResult]⟩
  · right
    refine ⟨rfl, ?_⟩
    intro hcontra
    have hlen := congrArg String.length hcontra
    rw [String.length_append] at hlen
    have hpre : ("Core point confidence too low: ").length = 31 := rfl
    have hemp : ("" : String).length = 0 := rfl
    omega
  · exfalso
    simp [validate_roi_size] at h7
  · left
    refine ⟨rfl, by simp, ?_⟩
    intro c hc
    simp only [List.mem_singleton] at hc
    rw [hc]
    exact le_of_not_lt h6

/-- Witness for C1: at a concrete flat 101×101 single-channel image the
hypotheses hold and the contract follows by applying the theorem. -/
theorem C1_witness :
    (constMat101.channels = 1) ∧ (101 ≤ constMat101.rows) ∧ (101 ≤ constMat101.cols) ∧
    (((detect_core_pointS idPrims defaultParams true initialStats constMat101 "" 0 0).1.success = true ∧
      (detect_core_pointS idPrims defaultParams true initialStats constMat101 "" 0 0).1.core_points ≠ [] ∧
      ∀ c ∈ (detect_core_pointS idPrims defaultParams true initialStats constMat101 "" 0 0).1.core_points,
        defaultParams.min_confidence ≤ c.confidence) ∨
     ((detect_core_pointS idPrims defaultParams true initialStats constMat101 "" 0 0).1.success = false ∧
      (detect_core_pointS idPrims defaultParams true initialStats constMat101 "" 0 0).1.error_message ≠ "")) :=
  ⟨rfl, by decide, by decide,
   C1_detect_result_contract idPrims defaultParams true initialStats constMat101 "" 0 0
     rfl (by decide) (by decide)⟩

/-! ## Claim C3: statistics updates -/

/-- C3 (amended): `update_stats` is invoked only when the pipeline
completes: when `detect_core_point` succeeds (or, in the C++, catches an
exception) the statistics are updated from their pre-`update_stats`
value — the input statistics after the gradient stage's SIMD-counter
effect — incrementing `total_images_processed` by exactly 1, the success
or failure counter accordingly, and the running average latency by the
standard incremental-mean formula.  Every early-rejection return skips
`update_stats`: the input-shape (empty, non-grayscale, undersized) and
low-quality rejections leave the statistics entirely unchanged, and the
no-candidates, low-confidence and ROI-check rejections change at most
`simd_operations_used` (incremented once by `compute_gradients_simd`
when the SIMD path is selected, as in the `-mavx2` Release build with
`use_simd` enabled), never the image/success/failure counters or the
running averages. -/
theorem C3_stats_updated_only_on_completion (prims : Prims) (params : DetectionParams)
    (simd : Bool) (s : ProcessingStats) (image : Mat) (filename : String)
    (file_index : ℤ) (t : ℕ) :
    ((detect_core_pointS prims params simd s image filename file_index t).1.success = true →
      (detect_core_pointS prims params simd s image filename file_index t).2 =
        update_stats
          (compute_orientation_field prims params simd s (preprocess_image prims params image)).2
          (detect_core_pointS prims params simd s image filename file_index t).1) ∧
    ((detect_core_pointS prims params simd s image filename file_index t).1.success = false →
      ((detect_core_pointS prims params simd s image filename file_index t).2 = s ∨
       (detect_core_pointS prims params simd s image filename file_index t).2 =
         { s with simd_operations_used := s.simd_operations_used + 1 }) ∧
      (detect_core_pointS prims params simd s image filename file_index t).2.total_images_processed =
        s.total_images_processed ∧
      (detect_core_pointS prims params simd s image filename file_index t).2.successful_detections =
        s.successful_detections ∧
      (detect_core_pointS prims params simd s image filename file_index t).2.failed_detections =
        s.failed_detections ∧
      (detect_core_pointS prims params simd s image filename file_index t).2.average_processing_time_us =
        s.average_processing_time_us ∧
      (detect_core_pointS prims params simd s image filename file_index t).2.average_confidence =
        s.average_confidence) ∧
    (∀ (s0 : ProcessingStats) (m : Mat),
      (compute_orientation_field prims params simd s0 m).2 =
        if params.use_simd && simd then
          { s0 with simd_operations_used := s0.simd_operations_used + 1 }
        else s0) ∧
    (∀ (s' : ProcessingStats) (r : DetectionResult),
      (update_stats s' r).total_images_processed = s'.total_images_processed + 1) ∧
    (∀ (s' : ProcessingStats) (r : DetectionResult), r.success = true →
      (update_stats s' r).successful_detections = s'.successful_detections + 1 ∧
      (update_stats s' r).failed_detections = s'.failed_detections) ∧
    (∀ (s' : ProcessingStats) (r : DetectionResult), r.success = false →
      (update_stats s' r).failed_detections = s'.failed_detections + 1 ∧
      (update_stats s' r).successful_detections = s'.successful_detections) ∧
    (∀ (s' : ProcessingStats) (r : DetectionResult),
      (update_stats s' r).average_processing_time_us =
        (s'.average_processing_time_us * (s'.total_images_processed : ℚ) +
          (r.processing_time_us : ℚ)) / ((s'.total_images_processed : ℚ) + 1)) := by
  have hof : ∀ (s0 : ProcessingStats) (m : Mat),
      (compute_orientation_field prims params simd s0 m).2 =
        if params.use_simd && simd then
          { s0 with simd_operations_used := s0.simd_operations_used + 1 }
        else s0 := by
    intro s0 m
    simp only [compute_orientation_field]
    split_ifs
    · rfl
    · rfl
  refine ⟨?_, ?_, hof, ?_, ?_, ?_, ?_⟩
  · simp only [detect_core_pointS]
    split_ifs <;> simp [defaultResult]
  · simp only [detect_core_pointS]
    split_ifs <;> intro hsucc <;>
      first
        | exact ⟨Or.inl rfl, rfl, rfl, rfl, rfl, rfl⟩
        | (rw [hof s (preprocess_image prims params image)]
           split_ifs
           · exact ⟨Or.inr rfl, rfl, rfl, rfl, rfl, rfl⟩
           · exact ⟨Or.inl rfl, rfl, rfl, rfl, rfl, rfl⟩)
        | simp at hsucc
  · intro s' r
    simp only [update_stats]
    split_ifs <;> rfl
  · intro s' r hr
    simp only [update_stats]
    split_ifs <;> exact ⟨rfl, rfl⟩
  · intro s' r hr
    simp only [update_stats]
    split_ifs with h1 h2
    · exact absurd h1 (by simp [hr])
    · exact absurd h1 (by simp [hr])
    · exact ⟨rfl, rfl⟩
  · intro s' r
    simp only [update_stats]
    split_ifs <;>
      simp only [Nat.add_sub_cancel] <;> push_cast <;> ring

/-- Counterexample for C3 as stated: for an empty input image (an early
rejection), `detect_core_point` returns without updating the statistics,
so `total_images_processed` does not increase by 1 (it stays 0). -/
theorem C3_counterexample :
    ¬ ((detect_core_pointS idPrims defaultParams true initialStats emptyMat "" 0 0).2.total_images_processed
        = initialStats.total_images_processed + 1) := by
  decide

/-- Witness for C3: on the same empty-image early rejection (with the
AVX2 capability flag set, as in the Release build) the result has
`success = false` and the amended theorem yields that the statistics are
unchanged up to at most the SIMD counter — here exactly unchanged, since
the rejection happens before the gradient stage. -/
theorem C3_witness :
    ((detect_core_pointS idPrims defaultParams true initialStats emptyMat "" 0 0).1.success = false) ∧
    (((detect_core_pointS idPrims defaultParams true initialStats emptyMat "" 0 0).2 = initialStats ∨
      (detect_core_pointS idPrims defaultParams true initialStats emptyMat "" 0 0).2 =
        { initialStats with
          simd_operations_used := initialStats.simd_operations_used + 1 }) ∧
     (detect_core_pointS idPrims defaultParams true initialStats emptyMat "" 0 0).2.total_images_processed =
       initialStats.total_images_processed ∧
     (detect_core_pointS idPrims defaultParams true initialStats emptyMat "" 0 0).2.successful_detections =
       initialStats.successful_detections ∧
     (detect_core_pointS idPrims defaultParams true initialStats emptyMat "" 0 0).2.failed_detections =
       initialStats.failed_detections ∧
     (detect_core_pointS idPrims defaultParams true initialStats emptyMat "" 0 0).2.average_processing_time_us =
       initialStats.average_processing_time_us ∧
     (detect_core_pointS idPrims defaultParams true initialStats emptyMat "" 0 0).2.average_confidence =
       initialStats.average_confidence) :=
  ⟨by decide,
   (C3_stats_updated_only_on_completion idPrims defaultParams true initialStats emptyMat "" 0 0).2.1
     (by decide)⟩

/-! ## Claim C9: batch processing order and parallel/sequential agreement -/

/-- The sequential push_back loop builds the same list as a map. -/
theorem foldl_append_eq_map {α β : Type} (f : α → β) (l : List α) :
    l.foldl (fun acc i => acc ++ [f i]) [] = l.map f := by
  have key : ∀ acc : List β, l.foldl (fun acc i => acc ++ [f i]) acc = acc ++ l.map f := by
    induction l with
    | nil => intro acc; simp
    | cons a l ih =>
      intro acc
      simp only [List.foldl_cons, List.map_cons, ih]
      simp
  simpa using key []

/-- C9: `detect_batch` returns exactly one `DetectionResult` per input
image, in input order: result `i` is produced from `images[i]` with
filename `filenames[i]` when `i < filenames.size()` and the empty string
otherwise, and with `file_index` equal to `i`; and `detect_batch` with
`parallel = true` returns a result list identical in content and order
to `detect_batch` with `parallel = false` (the per-image wall-clock
durations `tf` are held fixed; each task's result depends only on its
own inputs). -/
theorem C9_detect_batch_order (prims : Prims) (params : DetectionParams) (simd : Bool)
    (images : List Mat) (filenames : List String) (tf : ℕ → ℕ) (parallel : Bool)
    (i : ℕ) (hi : i < images.length) :
    (detect_batch prims params simd images filenames parallel tf).length = images.length ∧
    (detect_batch prims params simd images filenames parallel tf).getD i default =
      detect_core_point prims params simd (images.getD i default)
        (if i < filenames.length then filenames.getD i "" else "") (i : ℤ) (tf i) ∧
    detect_batch prims params simd images filenames true tf =
      detect_batch prims params simd images filenames false tf := by
  have hcanon : ∀ par : Bool, detect_batch prims params simd images filenames par tf =
      (List.range images.length).map (fun j => detect_core_point prims params simd
        (images.getD j default) (if j < filenames.length then filenames.getD j "" else "")
        (j : ℤ) (tf j)) := by
    intro par
    unfold detect_batch
    split_ifs
    · rw [List.map_map]
      rfl
    · exact foldl_append_eq_map _ _
  refine ⟨?_, ?_, ?_⟩
  · rw [hcanon]
    simp
  · rw [hcanon]
    have h1 : i < ((List.range images.length).map (fun j => detect_core_point prims params simd
        (images.getD j default) (if j < filenames.length then filenames.getD j "" else "")
        (j : ℤ) (tf j))).length := by
      simpa using hi
    rw [List.getD_eq_getElem _ _ h1]
    simp
  · rw [hcanon, hcanon]

/-- Witness for C9: a concrete two-image batch (so the parallel branch is
actually exercised) at index 0. -/
theorem C9_witness :
    (0 < ([emptyMat, constMat101] : List Mat).length) ∧
    ((detect_batch idPrims defaultParams true [emptyMat, constMat101] ["a"] true (fun _ : ℕ => (0 : ℕ))).length =
        ([emptyMat, constMat101] : List Mat).length ∧
     (detect_batch idPrims defaultParams true [emptyMat, constMat101] ["a"] true (fun _ : ℕ => (0 : ℕ))).getD 0 default =
       detect_core_point idPrims defaultParams true (([emptyMat, constMat101] : List Mat).getD 0 default)
         (if 0 < (["a"] : List String).length then (["a"] : List String).getD 0 "" else "")
         ((0 : ℕ) : ℤ) ((fun _ : ℕ => (0 : ℕ)) 0) ∧
     detect_batch idPrims defaultParams true [emptyMat, constMat101] ["a"] true (fun _ : ℕ => (0 : ℕ)) =
       detect_batch idPrims defaultParams true [emptyMat, constMat101] ["a"] false (fun _ : ℕ => (0 : ℕ))) :=
  ⟨by decide,
   C9_detect_batch_order idPrims defaultParams true [emptyMat, constMat101] ["a"] (fun _ : ℕ => (0 : ℕ)) true 0
     (by decide)⟩

/-! ## Claim C5: the [0,1] confidence range -/

/-- Value of the orientation-variance accumulation at the single search
center of the C5 fixture: 80 of the 81 coarse-grid samples differ from
the center orientation by exactly 3 (below `M_PI`, so no circular wrap),
giving an accumulated sum of `80 * 9 = 720` over `81` samples. -/
theorem orientationVarianceAcc_center_value :
    orientationVarianceAcc orientMat33 16 16 16 = (720, 81) := by
  have hoffs : sampleOffsets (16 / 2) = [-8, -6, -4, -2, 0, 2, 4, 6, 8] := by decide
  rw [orientationVarianceAcc, hoffs]
  simp only [List.foldl_cons, List.foldl_nil, orientMat33]
  norm_num [absQ, M_PI]
  simp only [Int.toNat_ofNat, Int.reduceNeg, Int.reduceAdd, Int.reduceToNat]
  norm_num

/-- The candidate list emitted on the C5 fixture: exactly one candidate,
at the grid center, with confidence `(720/81) * (2/5) = 32/9 > 1`. -/
theorem detect_core_candidates_fixture_value :
    detect_core_candidates defaultParams orientMat33 freqMat33 =
      [⟨16, 16, 32/9⟩] := by
  have hs : strided 16 (orientMat33.rows - 16) (16 / 2) = [16] := by decide
  have hs2 : strided 16 (orientMat33.cols - 16) (16 / 2) = [16] := by decide
  unfold detect_core_candidates
  simp only [defaultParams, hs, hs2, List.flatMap_cons, List.flatMap_nil,
    List.filterMap_cons, List.filterMap_nil, orientationVarianceAcc_center_value]
  norm_num [float_0_3, freqMat33]

/-- C5 (the code evaluated at the failing input): on an orientation field
whose values all lie in the range `(-π/2, π/2]` of the doubled-angle
formula and a frequency field inside the range `[0, 1/2]` of
`stddev/255`, `detect_core_candidates` with the default parameters emits
a candidate whose confidence is `32/9 > 1`, outside the `[0,1]` range
documented in the header ("Detection confidence [0.0-1.0]") and enforced
by the code's own single-argument `validate_core_point` range check,
which rejects this very candidate. -/
theorem C5_candidate_confidence_above_one :
    ∃ c ∈ detect_core_candidates defaultParams orientMat33 freqMat33,
      1 < c.confidence ∧ ¬ (validate_core_point_range c = true) := by
  refine ⟨⟨16, 16, 32/9⟩, ?_, by norm_num, ?_⟩
  · rw [detect_core_candidates_fixture_value]
    exact List.mem_singleton_self _
  · simp only [validate_core_point_range, Bool.and_eq_true, decide_eq_true_eq, not_and]
    intro h1 h2
    exact absurd h2 (by norm_num)

/-! ## Claim C6: the quality formula and the quality gate -/

/-- C6: `assess_image_quality` returns
`min(1, stddev(image)/255 + 0.5 * stddev(Laplacian(image))/1000)`, and
`detect_core_point` rejects with `success = false` and a quality message
whenever this value computed on the preprocessed image is below 0.2; in
particular a constant (zero-variance) image of size at least 101×101,
such as a flat mid-gray 200×200 image, always fails at the quality gate.
(The blur/normalize/equalize primitives map the constant input to a
constant image and the Laplacian of a constant image is constant —
hypotheses `hpre`, `hlap`, true of the real OpenCV operators since the
Gaussian kernel is normalized and the Laplacian kernel sums to zero —
and the floating-point square root of 0 is 0, hypothesis `hsq`.) -/
theorem C6_quality_gate_rejects_flat_images (prims : Prims) (params : DetectionParams)
    (simd : Bool) (filename : String) (file_index : ℤ) (t : ℕ) (s : ProcessingStats)
    (image : Mat) (v pv lv : ℚ)
    (hch : image.channels = 1) (hr : image.rows = 200) (hc : image.cols = 200)
    (hflat : IsConstMat image v)
    (hpre : IsConstMat (preprocess_image prims params image) pv)
    (hlap : IsConstMat (prims.laplacian (preprocess_image prims params image)) lv)
    (hsq : prims.sqrtQ 0 = 0) :
    (∀ m : Mat, assess_image_quality prims m =
      min 1 (prims.sqrtQ (matVar m) / 255 +
        prims.sqrtQ (matVar (prims.laplacian m)) / 1000 * (1/2))) ∧
    (∀ img2 : Mat, img2.channels = 1 → 101 ≤ img2.rows → 101 ≤ img2.cols →
      assess_image_quality prims (preprocess_image prims params img2) < 1/5 →
      (detect_core_pointS prims params simd s img2 filename file_index t).1.success = false ∧
      (detect_core_pointS prims params simd s img2 filename file_index t).1.error_message =
        "Image quality too low for processing") ∧
    ((detect_core_pointS prims params simd s image filename file_index t).1.success = false ∧
     (detect_core_pointS prims params simd s image filename file_index t).1.error_message =
       "Image quality too low for processing") := by
  have hgate : ∀ img2 : Mat, img2.channels = 1 → 101 ≤ img2.rows → 101 ≤ img2.cols →
      assess_image_quality prims (preprocess_image prims params img2) < 1/5 →
      (detect_core_pointS prims params simd s img2 filename file_index t).1.success = false ∧
      (detect_core_pointS prims params simd s img2 filename file_index t).1.error_message =
        "Image quality too low for processing" := by
    intro img2 h1 h2 h3 hq
    have hq' : assess_image_quality prims (preprocess_image prims params img2) < float_0_2 :=
      lt_trans hq (by norm_num [float_0_2])
    simp only [detect_core_pointS]
    split_ifs with g1 g2 g3
    · exfalso
      simp [Mat.isEmpty] at g1
      omega
    · exact absurd h1 g2
    · exfalso
      rcases g3 with g3 | g3 <;> omega
    · exact ⟨rfl, rfl⟩
  refine ⟨fun m => by simp [assess_image_quality, matStddev], hgate, ?_⟩
  have hq0 : assess_image_quality prims (preprocess_image prims params image) = 0 := by
    simp only [assess_image_quality, matStddev]
    rw [matVar_const _ _ hpre, matVar_const _ _ hlap, hsq]
    norm_num [min_def]
  exact hgate image hch (by omega) (by omega) (by rw [hq0]; norm_num)

/-- Witness for C6: the flat mid-gray 200×200 image with identity
primitives; all hypotheses are discharged concretely and the quality-gate
rejection follows by applying the theorem. -/
theorem C6_witness :
    (flatMat200.channels = 1) ∧ (flatMat200.rows = 200) ∧ (flatMat200.cols = 200) ∧
    (IsConstMat flatMat200 128) ∧
    (IsConstMat (preprocess_image idPrims defaultParams flatMat200) 128) ∧
    (IsConstMat (idPrims.laplacian (preprocess_image idPrims defaultParams flatMat200)) 128) ∧
    (idPrims.sqrtQ 0 = 0) ∧
    ((∀ m : Mat, assess_image_quality idPrims m =
        min 1 (idPrims.sqrtQ (matVar m) / 255 +
          idPrims.sqrtQ (matVar (idPrims.laplacian m)) / 1000 * (1/2))) ∧
     (∀ img2 : Mat, img2.channels = 1 → 101 ≤ img2.rows → 101 ≤ img2.cols →
        assess_image_quality idPrims (preprocess_image idPrims defaultParams img2) < 1/5 →
        (detect_core_pointS idPrims defaultParams true initialStats img2 "" 0 0).1.success = false ∧
        (detect_core_pointS idPrims defaultParams true initialStats img2 "" 0 0).1.error_message =
          "Image quality too low for processing") ∧
     ((detect_core_pointS idPrims defaultParams true initialStats flatMat200 "" 0 0).1.success = false ∧
      (detect_core_pointS idPrims defaultParams true initialStats flatMat200 "" 0 0).1.error_message =
        "Image quality too low for processing")) :=
  ⟨rfl, rfl, rfl,
   fun _ _ _ _ => rfl, fun _ _ _ _ => rfl, fun _ _ _ _ => rfl, rfl,
   C6_quality_gate_rejects_flat_images idPrims defaultParams true "" 0 0 initialStats
     flatMat200 128 128 128 rfl rfl rfl
     (fun _ _ _ _ => rfl) (fun _ _ _ _ => rfl) (fun _ _ _ _ => rfl) rfl⟩

/-! ## Claim C7: the cache byte-budget invariant -/

/-- `oldestIdx` stays in bounds on a nonempty entry list. -/
theorem oldestIdx_lt_length (l : List (String × ImageCacheEntry)) (h : l ≠ []) :
    oldestIdx l < l.length := by
  induction l with
  | nil => simp at h
  | cons e rest ih =>
    cases rest with
    | nil => simp [oldestIdx]
    | cons f rest' =>
      have hr := ih (List.cons_ne_nil f rest')
      rw [oldestIdx]
      split
      · simpa using Nat.succ_lt_succ hr
      · simp

/-- The scan of `remove_oldest_cache_entry` finds an entry whose
timestamp is minimal among all entries. -/
theorem oldestIdx_min (l : List (String × ImageCacheEntry)) (k : ℕ) (hk : k < l.length) :
    (l.getD (oldestIdx l) default).2.last_accessed ≤ (l.getD k default).2.last_accessed := by
  induction l generalizing k with
  | nil => simp at hk
  | cons e rest ih =>
    cases rest with
    | nil =>
      have hk0 : k = 0 := by simpa using Nat.lt_one_iff.1 (by simpa using hk)
      simp [oldestIdx, hk0]
    | cons f rest' =>
      rw [oldestIdx]
      split
      · rename_i hlt
        cases k with
        | zero =>
          simpa using le_of_lt hlt
        | succ k' =>
          simp only [List.getD_cons_succ]
          exact ih k' (by simpa using Nat.lt_of_succ_lt_succ hk)
      · rename_i hge
        push_neg at hge
        cases k with
        | zero => simp
        | succ k' =>
          simp only [List.getD_cons_zero, List.getD_cons_succ]
          calc e.2.last_accessed
              ≤ ((e :: f :: rest').getD (oldestIdx (f :: rest') + 1) default).2.last_accessed :=
                hge
            _ = ((f :: rest').getD (oldestIdx (f :: rest')) default).2.last_accessed := by
                simp [List.getD_cons_succ]
            _ ≤ ((f :: rest').getD k' default).2.last_accessed :=
                ih k' (by simpa using Nat.lt_of_succ_lt_succ hk)

/-- Removing the oldest entry from a nonempty cache shrinks the entry
list by exactly one. -/
theorem remove_oldest_cache_entry_length (s : CacheState) (h : ¬ s.entries.isEmpty = true) :
    (remove_oldest_cache_entry s).entries.length + 1 = s.entries.length := by
  have hne : s.entries ≠ [] := by
    intro he
    rw [he] at h
    simp at h
  have hlt := oldestIdx_lt_length s.entries hne
  have h1 := List.length_eraseIdx_add_one hlt
  simp only [remove_oldest_cache_entry, if_neg h]
  exact h1

/-- The eviction loop always terminates in a state that is under budget
or empty. -/
theorem cleanup_cache_if_needed_budget (s : CacheState) :
    (cleanup_cache_if_needed s).current_cache_size ≤
      budget_bytes (cleanup_cache_if_needed s) ∨
    (cleanup_cache_if_needed s).entries = [] := by
  have H : ∀ (n : ℕ) (s' : CacheState), s'.entries.length ≤ n →
      (cleanup_cache_if_needed s').current_cache_size ≤
        budget_bytes (cleanup_cache_if_needed s') ∨
      (cleanup_cache_if_needed s').entries = [] := by
    intro n
    induction n with
    | zero =>
      intro s' hs
      rw [cleanup_cache_if_needed]
      split_ifs with h
      · exfalso
        have : s'.entries = [] := List.length_eq_zero.1 (Nat.le_zero.1 hs)
        rw [this] at h
        simp at h
      · push_neg at h
        by_cases hb : budget_bytes s' < s'.current_cache_size
        · right
          have := h hb
          simpa using this
        · left
          omega
    | succ n ih =>
      intro s' hs
      rw [cleanup_cache_if_needed]
      split_ifs with h
      · apply ih
        have := remove_oldest_cache_entry_length s' h.2
        omega
      · push_neg at h
        by_cases hb : budget_bytes s' < s'.current_cache_size
        · right
          have := h hb
          simpa using this
        · left
          omega
  exact H s.entries.length s le_rfl

/-- C7 (amended): the byte-budget invariant (`current ≤ budget` or cache
empty) is established by every insertion — a caching `load_image` miss
with a successful decode ends with `cleanup_cache_if_needed`, which
repeatedly removes an entry with the oldest last-accessed timestamp
(first in iteration order on ties) until under budget or empty — but
`set_cache_size_mb` only assigns the budget without evicting, so after a
budget shrink the cache may stay over budget until the next caching
load. -/
theorem C7_cache_budget_after_insert (decode : String → Option Mat)
    (normalize : String → String) (now : ℕ) (filepath : String) (size_mb : ℕ)
    (s : CacheState) (image : Mat)
    (hmiss : s.entries.lookup (normalize filepath) = none)
    (hdec : decode (normalize filepath) = some image) :
    ((load_image decode normalize now filepath true s).2.current_cache_size ≤
        budget_bytes (load_image decode normalize now filepath true s).2 ∨
      (load_image decode normalize now filepath true s).2.entries = []) ∧
    (∀ s' : CacheState,
      (cleanup_cache_if_needed s').current_cache_size ≤
          budget_bytes (cleanup_cache_if_needed s') ∨
        (cleanup_cache_if_needed s').entries = []) ∧
    (∀ s' : CacheState,
      (budget_bytes s' < s'.current_cache_size ∧ ¬ s'.entries.isEmpty = true →
        cleanup_cache_if_needed s' =
          cleanup_cache_if_needed (remove_oldest_cache_entry s')) ∧
      (¬ (budget_bytes s' < s'.current_cache_size ∧ ¬ s'.entries.isEmpty = true) →
        cleanup_cache_if_needed s' = s')) ∧
    (∀ (s' : CacheState) (k : ℕ), k < s'.entries.length →
      (s'.entries.getD (oldestIdx s'.entries) default).2.last_accessed ≤
        (s'.entries.getD k default).2.last_accessed) ∧
    ((set_cache_size_mb size_mb s).entries = s.entries ∧
     (set_cache_size_mb size_mb s).current_cache_size = s.current_cache_size ∧
     (set_cache_size_mb size_mb s).max_cache_size_mb = size_mb) := by
  refine ⟨?_, cleanup_cache_if_needed_budget, ?_, fun s' k hk => oldestIdx_min s'.entries k hk,
    rfl, rfl, rfl⟩
  · simp only [load_image, hmiss, hdec]
    exact cleanup_cache_if_needed_budget _
  · intro s'
    constructor
    · intro h
      rw [cleanup_cache_if_needed, dif_pos h]
    · intro h
      rw [cleanup_cache_if_needed, dif_neg h]

/-- Counterexample for C7 as stated: load one 100×100 image (10000
bytes) into the empty cache under the default 256 MB budget, then shrink
the budget to 0 MB with `set_cache_size_mb`.  No eviction runs, so the
cache holds 10000 bytes against a 0-byte budget while nonempty: the
claimed after-every-operation invariant is false. -/
theorem C7_counterexample :
    ¬ ((set_cache_size_mb 0 (load_image (fun _ => some mat100) id 5 "a" true emptyCache).2).current_cache_size ≤
        budget_bytes (set_cache_size_mb 0 (load_image (fun _ => some mat100) id 5 "a" true emptyCache).2) ∨
      (set_cache_size_mb 0 (load_image (fun _ => some mat100) id 5 "a" true emptyCache).2).entries = []) := by
  have hload : (load_image (fun _ => some mat100) id 5 "a" true emptyCache).2 =
      ⟨[("a", ⟨mat100, "a", 10000, 5⟩)], 10000, 256, 0, 1⟩ := by
    simp only [load_image, emptyCache, id_eq, List.lookup_nil, calculate_image_memory_size,
      mat100, List.nil_append]
    rw [cleanup_cache_if_needed, dif_neg (by decide)]
    norm_num
  intro h
  rw [hload] at h
  rcases h with h | h
  · simp [set_cache_size_mb, budget_bytes] at h
  · simp [set_cache_size_mb] at h

/-- Witness for C7: the insertion invariant applied to the same concrete
load into the empty cache. -/
theorem C7_witness :
    ((emptyCache.entries.lookup (id "a") = none) ∧
     ((fun _ : String => some mat100) (id "a") = some mat100)) ∧
    ((load_image (fun _ => some mat100) id 5 "a" true emptyCache).2.current_cache_size ≤
        budget_bytes (load_image (fun _ => some mat100) id 5 "a" true emptyCache).2 ∨
      (load_image (fun _ => some mat100) id 5 "a" true emptyCache).2.entries = []) :=
  ⟨⟨rfl, rfl⟩,
   (C7_cache_budget_after_insert (fun _ => some mat100) id 5 "a" 0 emptyCache mat100
     rfl rfl).1⟩

/-! ## Claim C8: the loader usability check -/

/-- The checkerboard-row image has pixel sum `50 * 2001 * 255`. -/
theorem rectSum_img2001 : rectSum img2001 0 0 100 2001 = 25512750 := by
  unfold rectSum
  have hin : ∀ y ∈ Finset.range 100, ∑ x ∈ Finset.range 2001, img2001.pix (0 + y) (0 + x) =
      if y % 2 = 0 then (510255 : ℚ) else 0 := by
    intro y hy
    have hrow : ∀ x ∈ Finset.range 2001, img2001.pix (0 + y) (0 + x) =
        (if y % 2 = 0 then (255 : ℚ) else 0) := by
      intro x hx
      simp [img2001, Nat.zero_add]
    rw [Finset.sum_congr rfl hrow, Finset.sum_const, Finset.card_range]
    split_ifs <;> simp <;> norm_num
  rw [Finset.sum_congr rfl hin, Finset.sum_ite, Finset.sum_const, Finset.sum_const]
  have hcard : (Finset.filter (fun y => y % 2 = 0) (Finset.range 100)).card = 50 := by decide
  rw [hcard]
  simp
  norm_num

/-- The checkerboard-row image has population variance exactly
`(255/2)^2 = 65025/4`. -/
theorem matVar_img2001 : matVar img2001 = 65025 / 4 := by
  have hmean : rectMean img2001 0 0 100 2001 = 255 / 2 := by
    unfold rectMean
    rw [rectSum_img2001]
    norm_num
  have hterm : ∀ y x : ℕ, (img2001.pix y x - (255 / 2 : ℚ)) ^ 2 = 65025 / 4 := by
    intro y x
    simp only [img2001]
    split_ifs <;> norm_num
  unfold matVar rectVar
  rw [show img2001.rows = 100 from rfl, show img2001.cols = 2001 from rfl, hmean]
  rw [Finset.sum_congr rfl (fun y hy => Finset.sum_congr rfl (fun x hx => hterm (0 + y) (0 + x)))]
  rw [Finset.sum_const, Finset.sum_const, Finset.card_range, Finset.card_range]
  norm_num

/-- The model square root is exact on the variance of `img2001`. -/
theorem floorSqrtQ_img2001 : floorSqrtQ (65025 / 4) = 255 / 2 := by
  have h : Nat.sqrt (Int.toNat 65025 * 4) = 510 := by
    have h2 : (Int.toNat 65025 * 4 : ℕ) = 510 * 510 := by
      simp [Int.toNat_ofNat]
    rw [h2, Nat.sqrt_eq' 510]
  norm_num [floorSqrtQ, h]

/-- Counterexample for C8 as stated: the 100×2001 image `img2001` is
non-empty, single-channel, at least 100×100, and has standard deviation
`255/2 > 10`, so the claimed "if and only if" accepts it — but
`is_valid_fingerprint_image` rejects it, because the code also rejects
any image wider or taller than 2000 pixels (line 263), a condition the
claim omits. -/
theorem C8_counterexample :
    is_valid_fingerprint_image floorSqrtQ img2001 = false ∧
    is_valid_fingerprint_image_claimed floorSqrtQ img2001 = true := by
  constructor
  · rw [is_valid_fingerprint_image]
    rw [if_neg (by decide), if_neg (by decide), if_neg (by decide), if_pos (by decide)]
  · have hsd : (10 : ℚ) < matStddev floorSqrtQ img2001 := by
      rw [matStddev, matVar_img2001, floorSqrtQ_img2001]
      norm_num
    simp [is_valid_fingerprint_image_claimed, hsd]
    decide

/-- C8 (amended): the loader's usability check accepts an image if and
only if it is non-empty, single-channel, at least 100×100 AND at most
2000×2000 in both dimensions, and has intensity standard deviation above
the minimal-contrast threshold 10; and a failed check during
`load_image` has no effect on the returned image — whenever the decode
succeeds, the decoded image is returned regardless of the usability
check (the check only logs a warning). -/
theorem C8_loader_validation_iff (sqrtQ : ℚ → ℚ) (img : Mat)
    (decode : String → Option Mat) (normalize : String → String) (now : ℕ)
    (filepath : String) (use_cache : Bool) (s : CacheState) (image : Mat)
    (hdec : decode (normalize filepath) = some image)
    (hmiss : s.entries.lookup (normalize filepath) = none) :
    (is_valid_fingerprint_image sqrtQ img = true ↔
      (¬ img.isEmpty = true ∧ img.channels = 1 ∧
       100 ≤ img.rows ∧ 100 ≤ img.cols ∧ img.rows ≤ 2000 ∧ img.cols ≤ 2000 ∧
       (10 : ℚ) < matStddev sqrtQ img)) ∧
    ((load_image decode normalize now filepath use_cache s).1 = some image) := by
  constructor
  · rw [is_valid_fingerprint_image]
    split_ifs with h1 h2 h3 h4
    · simp [h1]
    · simp only [Bool.false_eq_true, false_iff]
      rintro ⟨_, hch, _⟩
      exact h2 hch
    · simp only [Bool.false_eq_true, false_iff]
      rintro ⟨_, _, hr, hc, _⟩
      rcases h3 with h3 | h3 <;> omega
    · simp only [Bool.false_eq_true, false_iff]
      rintro ⟨_, _, _, _, hr2, hc2, _⟩
      rcases h4 with h4 | h4 <;> omega
    · push_neg at h3 h4
      simp only [decide_eq_true_eq]
      constructor
      · intro hsd
        exact ⟨h1, not_not.1 h2, h3.1, h3.2, h4.1, h4.2, hsd⟩
      · rintro ⟨_, _, _, _, _, _, hsd⟩
        exact hsd
  · cases use_cache with
    | false =>
      simp only [load_image, hdec]
      rfl
    | true =>
      simp only [load_image, hmiss, hdec]
      rfl

/-- Witness for C8: a concrete decode of `mat100` through the empty
cache; the hypotheses hold and both conjuncts follow by applying the
theorem. -/
theorem C8_witness :
    (((fun _ : String => some mat100) (id "b") = some mat100) ∧
     (emptyCache.entries.lookup (id "b") = none)) ∧
    ((is_valid_fingerprint_image floorSqrtQ mat100 = true ↔
       (¬ mat100.isEmpty = true ∧ mat100.channels = 1 ∧
        100 ≤ mat100.rows ∧ 100 ≤ mat100.cols ∧ mat100.rows ≤ 2000 ∧ mat100.cols ≤ 2000 ∧
        (10 : ℚ) < matStddev floorSqrtQ mat100)) ∧
     ((load_image (fun _ => some mat100) id 7 "b" true emptyCache).1 = some mat100)) :=
  ⟨⟨rfl, rfl⟩,
   C8_loader_validation_iff floorSqrtQ mat100 (fun _ => some mat100) id 7 "b" true emptyCache
     mat100 rfl rfl⟩
